import Mathlib

set_option autoImplicit false

/-!
A shallow embedding of `src/validator.py` (runtime validation of a
callable's arguments against its declared parameter types), together with
theorems settling the specification's claims about it.

The embedding covers: the constraint matcher `instance_or_union`, the
positional/keyword binding loop and the checking loop of `validate`
(including the exact text of the raised `TypeError` message), the wrapper
produced by `validatedfunction`, the `validation` wrapper installed by
`validatedclass`, and the signature-preservation mechanism
(`functools.update_wrapper` setting `__wrapped__`, which
`inspect.signature` follows).
-/

deriving instance DecidableEq for Except

/-- Runtime values of the Python fragment the validator handles.
Float payloads are irrelevant to every claim (only the runtime class of a
value is ever inspected), so `vFloat` carries none. -/
inductive PyVal where
  | vNone
  | vBool (b : Bool)
  | vInt (n : Int)
  | vFloat
  | vStr (s : String)
  deriving DecidableEq

/-- The Python runtime classes the embedding knows about. -/
inductive PyType where
  | tBool
  | tInt
  | tFloat
  | tStr
  | tNoneType
  deriving DecidableEq

/-- `type(v)`: the runtime class of a value. -/
def typeOf : PyVal → PyType
  | .vNone => .tNoneType
  | .vBool _ => .tBool
  | .vInt _ => .tInt
  | .vFloat => .tFloat
  | .vStr _ => .tStr

/-- CPython's `isinstance(v, t)` for a single class `t`.  `bool` is a
native subclass of `int`, so `isinstance(True, int)` is `True`; there are
no other subclass relations among the modelled classes. -/
def isinst (v : PyVal) (t : PyType) : Bool :=
  match v, t with
  | .vBool _, .tBool => true
  | .vBool _, .tInt => true
  | .vInt _, .tInt => true
  | .vFloat, .tFloat => true
  | .vStr _, .tStr => true
  | .vNone, .tNoneType => true
  | _, _ => false

/-- A declared parameter type as `inspect` reports it: absent
(`inspect.Parameter.empty`, which is the marker class `inspect._empty`),
a single class, or `typing.Union[...]` whose `get_args` tuple is the
member list.  `typing` normalizes a `Union` (flattening, deduplication)
when the source text is evaluated, before the validator ever sees it, so
`union ts` stands for the already-normalized member tuple. -/
inductive PyAnn where
  | empty
  | single (t : PyType)
  | union (ts : List PyType)
  deriving DecidableEq

/-- `instance_or_union(obj, compared)` from validator.py.
`isinstance(obj, compared)` succeeds directly when `compared` is a class.
In particular it succeeds on the marker class `inspect._empty` (no
modelled value is an instance of it, so the result is `False`).  For
`typing.Union[...]`, on interpreters where the direct call raises
`TypeError`, `get_origin` is `Union` and the fallback
`isinstance(obj, get_args(compared))` tests membership in any member
class; on interpreters accepting the direct call (3.10+) it performs
that same membership test itself. -/
def instance_or_union (obj : PyVal) (compared : PyAnn) : Bool :=
  match compared with
  | .single t => isinst obj t
  | .empty => false
  | .union ts => ts.any (fun t => isinst obj t)

/-- `str(t)[8:-2]` for a class `t`: strips `<class '` and `'>`. -/
def pyTypeName : PyType → String
  | .tBool => "bool"
  | .tInt => "int"
  | .tFloat => "float"
  | .tStr => "str"
  | .tNoneType => "NoneType"

/-- `str(type(value))[8:-2]`: how `validate` renders the actual type of a
bad argument. -/
def renderActual (v : PyVal) : String :=
  pyTypeName (typeOf v)

/-- How `validate` renders a required type: `str(t)[7:]` when the string
form starts with `typing` (giving e.g. `Union[int, float]`), else
`str(t)[8:-2]` (giving e.g. `int`, and `inspect._empty` for the
absent-annotation marker class).  `typing`'s `Optional[...]` pretty
printing of a union containing `NoneType` is not modelled; members are
rendered in `get_args` order. -/
def renderExpected : PyAnn → String
  | .single t => pyTypeName t
  | .union ts => "Union[" ++ String.intercalate ", " (ts.map pyTypeName) ++ "]"
  | .empty => "inspect._empty"

/-- A single-quote character (written by code point to keep the source
free of bare quote characters). -/
def squote : String := "\x27"

/-- `str(l)[1:-1]` for a Python list of strings: the comma-separated
reprs with the surrounding brackets stripped, e.g. `'x', 'y'`. -/
def renderStrList (l : List String) : String :=
  String.intercalate ", " (l.map (fun s => squote ++ s ++ squote))

/-- One entry of `inspect.signature(func).parameters`: the name and the
declared type, in declaration order. -/
structure Param where
  name : String
  ann : PyAnn
  deriving DecidableEq

/-- The view of a callable that `validate` consumes: `func.__name__` and
the declared parameter list. -/
structure Func where
  name : String
  params : List Param
  deriving DecidableEq

/-- `list(params.keys())` in `validate`. -/
def paramlist (f : Func) : List String :=
  f.params.map Param.name

/-- `params[argument]`: lookup of a parameter descriptor by name in the
signature's ordered mapping. -/
def lookupParam (ps : List Param) (k : String) : Option Param :=
  ps.find? (fun p => p.name == k)

/-- The exceptions `validate` can raise: `IndexError` from a list
subscript in the binding loop, `KeyError` from `params[argument]`, and
the `TypeError` carrying the validation-failure message. -/
inductive PyError where
  | indexError
  | keyError (key : String)
  | typeError (msg : String)
  deriving DecidableEq

/-- A Python `dict` with string keys, as an insertion-ordered
association list. -/
abbrev PyDict := List (String × PyVal)

/-- `d[k] = v` on an insertion-ordered dict: update in place when the key
is present (keeping its position), else append. -/
def dictInsert (d : PyDict) (k : String) (v : PyVal) : PyDict :=
  if d.any (fun e => e.1 == k) then
    d.map (fun e => if e.1 == k then (k, v) else e)
  else
    d ++ [(k, v)]

/-- The positional-binding loop of `validate`:

```
for index in range(len(args)):
    if func.__name__ == '__init__':
        index += 1
    arguments[paramlist[index]] = args[index]
```

`remaining` counts the iterations left and `index` is the loop variable
of the current iteration.  When the callable is named `__init__` the
increment happens first, so BOTH subscripts of the assignment use the
incremented index.  CPython evaluates the right-hand side `args[index]`
before the target subscript `paramlist[index]`; either out-of-range
subscript raises `IndexError`. -/
def bindLoopAux (isInit : Bool) (names : List String) (args : List PyVal) :
    Nat → Nat → PyDict → Except PyError PyDict
  | 0, _, arguments => .ok arguments
  | remaining + 1, index, arguments =>
    let eff := if isInit then index + 1 else index
    match args[eff]? with
    | none => .error .indexError
    | some v =>
      match names[eff]? with
      | none => .error .indexError
      | some k => bindLoopAux isInit names args remaining (index + 1) (dictInsert arguments k v)

/-- The whole binding phase of `validate`: start from a copy of the
keyword arguments and run the positional loop for `len(args)`
iterations starting at index 0. -/
def bindLoop (isInit : Bool) (names : List String) (args : List PyVal)
    (kwargs : PyDict) : Except PyError PyDict :=
  bindLoopAux isInit names args args.length 0 kwargs

/-- The checking loop of `validate`: iterate over the bound arguments in
dict order; `params[argument]` raises `KeyError` when the name is not a
declared parameter; a failed `instance_or_union` test appends the
parameter name, the rendered actual type and the rendered required type
to the three message lists. -/
def checkLoop (ps : List Param) :
    PyDict → List String × List String × List String →
    Except PyError (List String × List String × List String)
  | [], acc => .ok acc
  | (k, v) :: rest, (bad_args, bad_types, good_types) =>
    match lookupParam ps k with
    | none => .error (.keyError k)
    | some p =>
      if instance_or_union v p.ann then
        checkLoop ps rest (bad_args, bad_types, good_types)
      else
        checkLoop ps rest
          (bad_args ++ [k], bad_types ++ [renderActual v], good_types ++ [renderExpected p.ann])

/-- The message of the `TypeError` raised by `validate`:

```
f'Argument{plural} {str(bad_args)[1:-1]} was passed incorrectly, '
f'of type{plural} {str(bad_types)[1:-1]}, should be of type{plural} '
f'{str(good_types)[1:-1]}.'
``` -/
def failureMessage (plural : String) (bad_args bad_types good_types : List String) : String :=
  "Argument" ++ plural ++ " " ++ renderStrList bad_args ++
    " was passed incorrectly, of type" ++ plural ++ " " ++ renderStrList bad_types ++
    ", should be of type" ++ plural ++ " " ++ renderStrList good_types ++ "."

/-- `validate(func, *args, **kwargs)` from validator.py: bind, check every
bound argument, and raise a single `TypeError` (plural phrasing exactly
when more than one argument failed) when any violation was recorded;
otherwise fall off the end and return `None`. -/
def validate (func : Func) (args : List PyVal) (kwargs : PyDict) : Except PyError Unit :=
  match bindLoop (func.name == "__init__") (paramlist func) args kwargs with
  | .error e => .error e
  | .ok arguments =>
    match checkLoop func.params arguments ([], [], []) with
    | .error e => .error e
    | .ok (bad_args, bad_types, good_types) =>
      let plural := if bad_args.length > 1 then "s" else ""
      if bad_args.length > 0 then
        .error (.typeError (failureMessage plural bad_args bad_types good_types))
      else
        .ok ()

/-- The behavior of a callable's body on one call, pure in this
embedding: positional arguments and keyword arguments to the returned
value. -/
abbrev Impl := List PyVal → PyDict → PyVal

/-- The `wrapper` closure produced by `validatedfunction`:

```
def wrapper(*args, **kwargs):
    validate(func, *args, **kwargs)
    func(*args, **kwargs)
```

An exception from `validate` propagates before `func` runs; otherwise
`func` is called but its result is discarded — the body has no `return`
statement, so the wrapper itself returns `None`. -/
def validatedfunctionWrapper (func : Func) (impl : Impl) (args : List PyVal)
    (kwargs : PyDict) : Except PyError PyVal :=
  match validate func args kwargs with
  | .error e => .error e
  | .ok () =>
    let _ := impl args kwargs
    .ok PyVal.vNone

/-- The `validation` closure `validatedclass` installs as the new
`__init__`:

```
def validation(self, *args, **kwargs):
    validate(old_init, *args, **kwargs)
    old_init(self, *args, **kwargs)
```

`validate` sees only the explicit arguments (no `self`); on success the
old init runs on `self` plus the explicit arguments, and the wrapper
returns `None` as any `__init__` does. -/
def validatedclassValidation (old_init : Func) (initImpl : Impl) (self : PyVal)
    (args : List PyVal) (kwargs : PyDict) : Except PyError PyVal :=
  match validate old_init args kwargs with
  | .error e => .error e
  | .ok () =>
    let _ := initImpl (self :: args) kwargs
    .ok PyVal.vNone

/-- A parameter as introspection reports it: name, declared type, and
default value (`none` when the parameter has no default). -/
structure SigParam where
  name : String
  ann : PyAnn
  default : Option PyVal
  deriving DecidableEq

/-- A callable as the introspection layer sees it: its `__name__`, its
own declared parameter list, and the `__wrapped__` attribute when
`functools.update_wrapper` has set one. -/
inductive PyCallable where
  | mk (name : String) (ownParams : List SigParam) (wrapped : Option PyCallable)

/-- `__name__` of a callable. -/
def PyCallable.name : PyCallable → String
  | .mk n _ _ => n

/-- The callable's own declared parameter list (ignoring `__wrapped__`). -/
def PyCallable.ownParams : PyCallable → List SigParam
  | .mk _ ps _ => ps

/-- `functools.update_wrapper(wrapper, wrapped)`: copies `__name__` (and
the other `WRAPPER_ASSIGNMENTS`) from `wrapped` onto `wrapper` and sets
`wrapper.__wrapped__ = wrapped`.  The wrapper's own parameter list is
untouched. -/
def update_wrapper (wrapper wrapped : PyCallable) : PyCallable :=
  .mk wrapped.name wrapper.ownParams (some wrapped)

/-- `inspect.signature(f).parameters`: `follow_wrapped` is true by
default, so the `__wrapped__` chain is followed before the declared
parameters are read. -/
def signatureParams : PyCallable → List SigParam
  | .mk _ ps none => ps
  | .mk _ _ (some g) => signatureParams g

/-- The `__init__` installed by `validatedclass`: the exec-generated
function `func` — carrying whatever parameter list the generated source
text `def func{inspect.signature(old_init)}: ...` produced — passed
through `update_wrapper(temp['func'], old_init)` (line 100 of
validator.py).  `genParams` is left arbitrary: the theorems do not depend
on how faithfully the text round-trip reproduces the parameters. -/
def validatedclassNewInit (genParams : List SigParam) (old_init : PyCallable) : PyCallable :=
  update_wrapper (.mk "func" genParams none) old_init

/-- `k` is a key of the dict `d`. -/
def hasKey (d : PyDict) (k : String) : Prop :=
  ∃ v, (k, v) ∈ d

/-- The violations `validate` records for a dict of bound arguments whose
names are all declared: for each entry failing its constraint, the
parameter name, rendered actual type and rendered required type, in
dict order.  Used to characterize `checkLoop`. -/
def violationsOf (ps : List Param) (arguments : PyDict) : List (String × String × String) :=
  arguments.filterMap (fun e =>
    match lookupParam ps e.1 with
    | none => none
    | some p =>
      if instance_or_union e.2 p.ann then none
      else some (e.1, renderActual e.2, renderExpected p.ann))

/-- `def f(x: int)` — a plain annotated function of one parameter. -/
def funcIntParam : Func :=
  ⟨"f", [⟨"x", .single .tInt⟩]⟩

/-- A body for `funcIntParam` that returns its first positional
argument. -/
def identityImpl : Impl :=
  fun args _ => args.headD PyVal.vNone

/-- `def g(x)` — one parameter with no declared type. -/
def funcUnannotated : Func :=
  ⟨"g", [⟨"x", .empty⟩]⟩

/-- `def h(x: int, y: str)`. -/
def funcTwoParams : Func :=
  ⟨"h", [⟨"x", .single .tInt⟩, ⟨"y", .single .tStr⟩]⟩

/-- `def __init__(self, x: int)` — the constructor `validatedclass`
validates, as `inspect` reports it (`self` unannotated). -/
def initExample : Func :=
  ⟨"__init__", [⟨"self", .empty⟩, ⟨"x", .single .tInt⟩]⟩

/-- C1: evidence of the code bug refuting the claim.  The `wrapper`
produced by `validatedfunction` never returns the wrapped callable's
result, because its body has no `return` statement.  At the failing
input `f(5)` — where `f(x: int)` returns its argument and validation
passes — the original callable returns `5` but the wrapped call returns
`None`. -/
theorem validatedfunction_discards_result :
    validate funcIntParam [PyVal.vInt 5] [] = .ok () ∧
    identityImpl [PyVal.vInt 5] [] = PyVal.vInt 5 ∧
    validatedfunctionWrapper funcIntParam identityImpl [PyVal.vInt 5] [] = .ok PyVal.vNone ∧
    (Except.ok PyVal.vNone ≠ (.ok (PyVal.vInt 5) : Except PyError PyVal)) :=
  ⟨rfl, rfl, rfl, by decide⟩

/-- C2: evidence of the code bug refuting the claim.  In the binding
loop, `index += 1` for a callable named `__init__` is applied before
BOTH subscripts of `arguments[paramlist[index]] = args[index]`, so the
i-th supplied positional value is never aligned with the (i+1)-th
declared parameter; the final iteration evaluates `args[len(args)]`, and
every construction call with at least one positional argument raises
`IndexError`.  At the failing input — `__init__(self, x: int)` validated
with the single positional argument `5`, a value satisfying its declared
constraint — `validate` raises `IndexError` instead of returning
normally. -/
theorem validate_init_positional_indexerror :
    validate initExample [PyVal.vInt 5] [] = .error .indexError ∧
    instance_or_union (PyVal.vInt 5) (PyAnn.single PyType.tInt) = true :=
  ⟨rfl, rfl⟩

/-- C3, counterexample: the claim "unannotated parameters always pass"
is false at a concrete input.  For `g(x)` with `x` unannotated,
supplying `5` records a violation for `x`: `validate` raises a
`TypeError` naming `x`, actual type `int`, expected type
`inspect._empty`. -/
theorem unannotated_flagged_counterexample :
    validate funcUnannotated [PyVal.vInt 5] [] =
      .error (.typeError (failureMessage "" ["x"] ["int"] ["inspect._empty"])) := rfl

/-- C3, amended: a value supplied for a parameter with no declared type
is always recorded as a violation.  `isinstance` against the
`inspect._empty` marker class is `False` for every value, so the matcher
rejects it, and `validate` on `g(x)` raises a `TypeError` naming the
parameter with expected type `inspect._empty`. -/
theorem unannotated_always_flagged :
    (∀ v : PyVal, instance_or_union v PyAnn.empty = false) ∧
    (∀ v : PyVal, validate funcUnannotated [v] [] =
      .error (.typeError (failureMessage "" ["x"] [renderActual v] ["inspect._empty"]))) :=
  ⟨fun _ => rfl, fun _ => rfl⟩

/-- C4, counterexample: the claim "supplying a boolean for an integer
constraint is recorded as a violation" is false at a concrete input.
`isinstance(True, int)` is `True` (`bool` is a native subclass of
`int`), so the matcher accepts `True` for the constraint `int`, and
`validate` on `f(x: int)` called with `True` returns normally, recording
no violation. -/
theorem bool_for_int_accepted_counterexample :
    instance_or_union (PyVal.vBool true) (PyAnn.single PyType.tInt) = true ∧
    validate funcIntParam [PyVal.vBool true] [] = .ok () :=
  ⟨rfl, rfl⟩

/-- C4, amended: supplying a boolean for a parameter declared `int`
records no violation: `bool` is a native subclass of `int`, so the
matcher accepts either boolean by the native subtype rule, and
validation returns normally. -/
theorem bool_for_int_accepted :
    ∀ b : Bool, instance_or_union (PyVal.vBool b) (PyAnn.single PyType.tInt) = true ∧
      validate funcIntParam [PyVal.vBool b] [] = .ok () :=
  fun _ => ⟨rfl, rfl⟩

/-- C6: the matcher accepts a value against an alternative-set (union)
constraint exactly when it accepts the value against some member of the
set as a single-type constraint. -/
theorem instance_or_union_union_iff (v : PyVal) (ts : List PyType) :
    instance_or_union v (PyAnn.union ts) = true ↔
      ∃ t ∈ ts, instance_or_union v (PyAnn.single t) = true := by
  simp [instance_or_union, List.any_eq_true]

/-- C7: when validation of a call fails, the original callable's body
never begins executing.  Both wrappers run `validate` first; on an
exception the wrapper's outcome is that exception alone, independent of
whatever the wrapped body would compute. -/
theorem wrapped_body_not_run_on_failure (func : Func) (args : List PyVal)
    (kwargs : PyDict) (e : PyError)
    (hfail : validate func args kwargs = .error e) :
    (∀ impl : Impl, validatedfunctionWrapper func impl args kwargs = .error e) ∧
    (∀ (initImpl : Impl) (self : PyVal),
      validatedclassValidation func initImpl self args kwargs = .error e) := by
  constructor
  · intro impl
    simp only [validatedfunctionWrapper, hfail]
  · intro initImpl self
    simp only [validatedclassValidation, hfail]

theorem wrapped_body_not_run_on_failure_witness :
    validatedfunctionWrapper funcIntParam identityImpl [PyVal.vStr "a"] [] =
      .error (.typeError (failureMessage "" ["x"] ["str"] ["int"])) ∧
    validatedclassValidation funcIntParam identityImpl PyVal.vNone [PyVal.vStr "a"] [] =
      .error (.typeError (failureMessage "" ["x"] ["str"] ["int"])) := by
  have h := wrapped_body_not_run_on_failure funcIntParam [PyVal.vStr "a"] []
    (.typeError (failureMessage "" ["x"] ["str"] ["int"])) rfl
  exact ⟨h.1 identityImpl, h.2 identityImpl PyVal.vNone⟩

/-- C8: introspecting the `__init__` installed by `validatedclass`
yields exactly the original constructor's parameters — same names, same
order, same defaults (and declared types) — whatever parameter list the
exec-generated function itself carries: `update_wrapper` sets
`__wrapped__` to the original constructor, and `inspect.signature`
follows `__wrapped__` before reading the declared parameters. -/
theorem validatedclass_signature_preserved (genParams : List SigParam)
    (old_init : PyCallable) :
    signatureParams (validatedclassNewInit genParams old_init) = signatureParams old_init := rfl

/-- Characterization of the checking loop when every bound name is
declared: it returns the three accumulators extended with, respectively,
the names, rendered actual types and rendered required types of exactly
the failing bound arguments, in dict order. -/
theorem checkLoop_ok (ps : List Param) :
    ∀ (arguments : PyDict) (ba bt gt : List String),
    (∀ e ∈ arguments, (lookupParam ps e.1).isSome) →
    checkLoop ps arguments (ba, bt, gt) =
      .ok (ba ++ (violationsOf ps arguments).map (fun t => t.1),
           bt ++ (violationsOf ps arguments).map (fun t => t.2.1),
           gt ++ (violationsOf ps arguments).map (fun t => t.2.2)) := by
  intro arguments
  induction arguments with
  | nil =>
    intro ba bt gt _
    simp [checkLoop, violationsOf]
  | cons hd tl ih =>
    intro ba bt gt h
    obtain ⟨k, v⟩ := hd
    have hk : (lookupParam ps k).isSome := h (k, v) (List.mem_cons_self _ _)
    have htl : ∀ e ∈ tl, (lookupParam ps e.1).isSome :=
      fun e he => h e (List.mem_cons_of_mem _ he)
    cases hlook : lookupParam ps k with
    | none => rw [hlook] at hk; simp at hk
    | some p =>
      cases hinst : instance_or_union v p.ann with
      | true =>
        simp only [checkLoop, hlook, hinst, if_pos]
        rw [ih ba bt gt htl]
        simp [violationsOf, List.filterMap_cons, hlook, hinst]
      | false =>
        simp only [checkLoop, hlook, hinst]
        rw [ih (ba ++ [k]) (bt ++ [renderActual v]) (gt ++ [renderExpected p.ann]) htl]
        simp [violationsOf, List.filterMap_cons, hlook, hinst, List.append_assoc]

/-- C5: collect-then-raise-once.  For a call whose binding succeeds and
whose bound names are all declared: when no bound argument fails its
constraint, `validate` returns normally; when at least one fails,
`validate` raises exactly one `TypeError` whose message names all the
failing parameters together, all their actual type names together and
all their required type names together, with plural phrasing exactly
when more than one argument failed. -/
theorem validate_aggregates (func : Func) (args : List PyVal) (kwargs : PyDict)
    (arguments : PyDict)
    (hbind : bindLoop (func.name == "__init__") (paramlist func) args kwargs = .ok arguments)
    (hdecl : ∀ e ∈ arguments, (lookupParam func.params e.1).isSome) :
    (violationsOf func.params arguments = [] → validate func args kwargs = .ok ()) ∧
    (violationsOf func.params arguments ≠ [] →
      validate func args kwargs = .error (.typeError (failureMessage
        (if (violationsOf func.params arguments).length > 1 then "s" else "")
        ((violationsOf func.params arguments).map (fun t => t.1))
        ((violationsOf func.params arguments).map (fun t => t.2.1))
        ((violationsOf func.params arguments).map (fun t => t.2.2))))) := by
  have hch := checkLoop_ok func.params arguments [] [] [] hdecl
  constructor
  · intro hnil
    simp only [validate, hbind, hch, hnil]
    simp
  · intro hne
    have hpos : 0 < (violationsOf func.params arguments).length := List.length_pos.mpr hne
    simp only [validate, hbind, hch]
    simp [hpos, List.length_map]

theorem validate_aggregates_witness :
    validate funcTwoParams [PyVal.vStr "a", PyVal.vInt 3] [] =
      .error (.typeError (failureMessage "s" ["x", "y"] ["str", "int"] ["int", "str"])) ∧
    validate funcTwoParams [PyVal.vInt 1, PyVal.vStr "b"] [] = .ok () := by
  constructor
  · exact (validate_aggregates funcTwoParams [PyVal.vStr "a", PyVal.vInt 3] []
      [("x", PyVal.vStr "a"), ("y", PyVal.vInt 3)] rfl (by decide)).2 (by decide)
  · exact (validate_aggregates funcTwoParams [PyVal.vInt 1, PyVal.vStr "b"] []
      [("x", PyVal.vInt 1), ("y", PyVal.vStr "b")] rfl (by decide)).1 (by decide)

/-- When a plain (non-`__init__`) call supplies more positional values
than there are declared parameter names, the binding loop reaches the
first index past the parameter list — which is still within `args` — and
the subscript `paramlist[index]` raises `IndexError`. -/
theorem bindLoopAux_overflow (names : List String) (args : List PyVal) :
    ∀ (remaining index : Nat) (arguments : PyDict),
    index + remaining = args.length →
    index ≤ names.length →
    names.length < args.length →
    bindLoopAux false names args remaining index arguments = .error .indexError := by
  intro remaining
  induction remaining with
  | zero =>
    intro index arguments h0 hle hlt
    omega
  | succ r ih =>
    intro index arguments h0 hle hlt
    have hidx : index < args.length := by omega
    simp only [bindLoopAux]
    rw [show (if (false = true) then index + 1 else index) = index from rfl,
        List.getElem?_eq_getElem hidx]
    rcases Nat.lt_or_ge index names.length with hin | hout
    · rw [List.getElem?_eq_getElem hin]
      exact ih (index + 1) (dictInsert arguments names[index] args[index]) (by omega) (by omega) hlt
    · rw [List.getElem?_eq_none hout]

/-- C9: a call that supplies more positional arguments than the callable
declares parameters fails during binding with an `IndexError` — a fatal
call-time error distinct from a validation failure: the outcome is never
the `TypeError` that reports type violations. -/
theorem validate_binding_overflow (func : Func) (args : List PyVal) (kwargs : PyDict)
    (hname : func.name ≠ "__init__")
    (hlen : func.params.length < args.length) :
    validate func args kwargs = .error PyError.indexError ∧
    ∀ msg, validate func args kwargs ≠ .error (.typeError msg) := by
  have hb : (func.name == "__init__") = false := beq_eq_false_iff_ne.mpr hname
  have hpl : (paramlist func).length < args.length := by
    simpa [paramlist] using hlen
  have hover := bindLoopAux_overflow (paramlist func) args args.length 0 kwargs
    (by omega) (by omega) hpl
  have hval : validate func args kwargs = .error PyError.indexError := by
    simp only [validate, bindLoop, hb, hover]
  exact ⟨hval, fun msg => by simp [hval]⟩

theorem validate_binding_overflow_witness :
    validate funcIntParam [PyVal.vInt 1, PyVal.vInt 2] [] = .error PyError.indexError :=
  (validate_binding_overflow funcIntParam [PyVal.vInt 1, PyVal.vInt 2] []
    (by decide) (by decide)).1

/-- Updating one key of a dict never removes another key. -/
theorem hasKey_dictInsert (d : PyDict) (k0 : String) (v0 : PyVal) (k : String)
    (h : hasKey d k) : hasKey (dictInsert d k0 v0) k := by
  obtain ⟨v, hv⟩ := h
  unfold dictInsert
  split
  · by_cases hk : k = k0
    · subst hk
      exact ⟨v0, List.mem_map.mpr ⟨(k, v), hv, by simp⟩⟩
    · refine ⟨v, List.mem_map.mpr ⟨(k, v), hv, ?_⟩⟩
      simp [hk]
  · exact ⟨v, List.mem_append_left _ hv⟩

/-- A key present before the binding loop runs is still present when the
loop completes normally: positional binding only adds or overwrites
declared parameter names. -/
theorem bindLoopAux_hasKey (isInit : Bool) (names : List String) (args : List PyVal) :
    ∀ (remaining index : Nat) (d d' : PyDict),
    bindLoopAux isInit names args remaining index d = .ok d' →
    ∀ k, hasKey d k → hasKey d' k := by
  intro remaining
  induction remaining with
  | zero =>
    intro index d d' hok k hk
    simp only [bindLoopAux] at hok
    cases hok
    exact hk
  | succ r ih =>
    intro index d d' hok k hk
    simp only [bindLoopAux] at hok
    rcases hargs : args[if isInit then index + 1 else index]? with _ | v
    · rw [hargs] at hok; cases hok
    · rw [hargs] at hok
      rcases hnames : names[if isInit then index + 1 else index]? with _ | k0
      · rw [hnames] at hok; cases hok
      · rw [hnames] at hok
        exact ih (index + 1) (dictInsert d k0 v) d' hok k (hasKey_dictInsert d k0 v k hk)

/-- When some bound argument's name is not a declared parameter, the
checking loop stops at the first such name with a `KeyError` for it,
whatever is in the accumulators. -/
theorem checkLoop_keyError (ps : List Param) :
    ∀ (arguments : PyDict) (acc : List String × List String × List String),
    (∃ e ∈ arguments, lookupParam ps e.1 = none) →
    ∃ k, lookupParam ps k = none ∧ checkLoop ps arguments acc = .error (.keyError k) := by
  intro arguments
  induction arguments with
  | nil =>
    intro acc h
    simp at h
  | cons hd tl ih =>
    intro acc h
    obtain ⟨k0, v0⟩ := hd
    obtain ⟨ba, bt, gt⟩ := acc
    cases hlook : lookupParam ps k0 with
    | none =>
      exact ⟨k0, hlook, by simp only [checkLoop, hlook]⟩
    | some p =>
      obtain ⟨e, he, hnone⟩ := h
      rcases List.mem_cons.mp he with rfl | hmem
      · rw [hlook] at hnone; cases hnone
      · cases hinst : instance_or_union v0 p.ann with
        | true =>
          obtain ⟨k, h1, h2⟩ := ih (ba, bt, gt) ⟨e, hmem, hnone⟩
          exact ⟨k, h1, by simp only [checkLoop, hlook, hinst, if_pos]; exact h2⟩
        | false =>
          obtain ⟨k, h1, h2⟩ := ih
            (ba ++ [k0], bt ++ [renderActual v0], gt ++ [renderExpected p.ann]) ⟨e, hmem, hnone⟩
          refine ⟨k, h1, ?_⟩
          simp only [checkLoop, hlook, hinst]
          exact h2

/-- C10: a keyword argument whose name is not a declared parameter makes
`validate` raise a `KeyError` (from the `params[argument]` lookup) for
an undeclared name — it neither returns normally nor raises the
validation-failure `TypeError` — provided the positional binding phase
itself completes. -/
theorem validate_unknown_keyword (func : Func) (args : List PyVal) (kwargs : PyDict)
    (k : String) (v : PyVal) (hk : (k, v) ∈ kwargs)
    (hundecl : lookupParam func.params k = none)
    (arguments : PyDict)
    (hbind : bindLoop (func.name == "__init__") (paramlist func) args kwargs = .ok arguments) :
    ∃ k2, lookupParam func.params k2 = none ∧
      validate func args kwargs = .error (.keyError k2) := by
  have hkey : hasKey arguments k :=
    bindLoopAux_hasKey (func.name == "__init__") (paramlist func) args args.length 0
      kwargs arguments hbind k ⟨v, hk⟩
  obtain ⟨v2, hv2⟩ := hkey
  obtain ⟨k2, h1, h2⟩ := checkLoop_keyError func.params arguments ([], [], [])
    ⟨(k, v2), hv2, hundecl⟩
  exact ⟨k2, h1, by simp only [validate, hbind, h2]⟩

theorem validate_unknown_keyword_witness :
    ∃ k2, lookupParam funcIntParam.params k2 = none ∧
      validate funcIntParam [] [("y", PyVal.vInt 1)] = .error (.keyError k2) :=
  validate_unknown_keyword funcIntParam [] [("y", PyVal.vInt 1)] "y" (PyVal.vInt 1)
    (by decide) (by decide) [("y", PyVal.vInt 1)] rfl
